import Mathlib

/-!
Shallow embedding of the OMAP power-management core:
the partitioned PRM register-access layer and hard-reset controller
(arch/arm/mach-omap2/prminst44xx.c) and the Voltage Processor scaling
engine (arch/arm/mach-omap2/vp.c), together with theorems checking the
natural-language specification against the code.
-/

/-- Truncation to a 32-bit unsigned value (C `u32` arithmetic). -/
def u32 (n : Nat) : Nat := n % 2 ^ 32

/-- Truncation to an 8-bit unsigned value (C `u8` / unsigned `char`). -/
def u8 (n : Nat) : Nat := n % 2 ^ 8

/-- Bitwise complement on a 32-bit value (C `~m` under `u32` arithmetic). -/
def compl32 (m : Nat) : Nat := 2 ^ 32 - 1 - u32 m

/-- Helper for `ffs`: trailing-zero count with explicit fuel. -/
def ffsAux : Nat → Nat → Nat
  | _, 0 => 0
  | n, fuel + 1 => if n % 2 = 1 then 0 else ffsAux (n / 2) fuel + 1

/-- C `__ffs(n)`: index of the lowest set bit of a nonzero 32-bit value. -/
def ffs (n : Nat) : Nat := ffsAux n 32

/-- Helper for `omap_test_timeout`: the loop
`for (i = 0; i < timeout; i++) { if (cond) break; udelay(1); }`
run from index `i` with `fuel` iterations remaining; returns the final
index value. -/
def pollAux (cond : Nat → Bool) : Nat → Nat → Nat
  | i, 0 => i
  | i, fuel + 1 => if cond i then i else pollAux cond (i + 1) fuel

/-- Modelled from the spec: the bounded busy-wait poll macro
`omap_test_timeout(cond, timeout, index)` (declared outside the three
hardware-control source units), which checks `cond` up to `timeout` times
with a fixed microsecond delay between iterations and leaves `index` at
the first iteration where `cond` held, or at `timeout` if it never did.
`cond` is indexed by the iteration number so that hardware whose state
changes between polls can be modelled. -/
def omap_test_timeout (cond : Nat → Bool) (timeout : Nat) : Nat :=
  pollAux cond 0 timeout

/-- Linux errno `EINVAL`. -/
def EINVAL : Int := 22
/-- Linux errno `ETIMEDOUT`. -/
def ETIMEDOUT : Int := 110
/-- Linux errno `EEXIST`. -/
def EEXIST : Int := 17
/-- Linux errno `EBUSY`. -/
def EBUSY : Int := 16

/-! ## Partitioned PRM register-access layer (prminst44xx.c) -/

/-- The PRM partition table: the partition count
`OMAP4_MAX_PRCM_PARTITIONS`, the sentinel
`OMAP4430_INVALID_PRCM_PARTITION`, and the `_prm_bases` array mapping each
partition to its base address (`none` models a NULL base, i.e. a partition
never initialized by `omap4_prm_base_init`). -/
structure PrmLayout where
  nParts : Nat
  invalid : Nat
  bases : Nat → Option Nat

/-- The `BUG_ON` predicate guarding every partitioned access:
`part >= OMAP4_MAX_PRCM_PARTITIONS || part == OMAP4430_INVALID_PRCM_PARTITION
|| !_prm_bases[part]`. -/
def prmPartBad (L : PrmLayout) (part : Nat) : Bool :=
  decide (L.nParts ≤ part) || decide (part = L.invalid) || (L.bases part).isNone

/-- Address resolution `_prm_bases[part] + inst + idx`. -/
def prminst_addr (L : PrmLayout) (part inst idx : Nat) : Nat :=
  (L.bases part).getD 0 + inst + idx

/-- `omap4_prminst_read_inst_reg`: `none` models the process-terminating
`BUG_ON`; otherwise returns the 32-bit value at the resolved address of the
register file `mem`. -/
def omap4_prminst_read_inst_reg (L : PrmLayout) (mem : Nat → Nat)
    (part inst idx : Nat) : Option Nat :=
  if prmPartBad L part then none
  else some (u32 (mem (prminst_addr L part inst idx)))

/-- `omap4_prminst_write_inst_reg`: `none` models the process-terminating
`BUG_ON`; otherwise returns the updated register file. -/
def omap4_prminst_write_inst_reg (L : PrmLayout) (mem : Nat → Nat)
    (val part inst idx : Nat) : Option (Nat → Nat) :=
  if prmPartBad L part then none
  else some (fun a => if a = prminst_addr L part inst idx then u32 val else mem a)

/-- `omap4_prminst_rmw_inst_reg_bits`: read, clear `mask`, set `bits`,
write back; returns the updated register file and the written value. -/
def omap4_prminst_rmw_inst_reg_bits (L : PrmLayout) (mem : Nat → Nat)
    (mask bits part inst idx : Nat) : Option ((Nat → Nat) × Nat) :=
  match omap4_prminst_read_inst_reg L mem part inst idx with
  | none => none
  | some v0 =>
    let v := u32 ((v0 &&& compl32 mask) ||| bits)
    match omap4_prminst_write_inst_reg L mem v part inst idx with
    | none => none
    | some mem1 => some (mem1, v)

/-! ## Hard-reset deassert (prminst44xx.c)

`omap4_prminst_deassert_hardreset` is modelled at the device level: the
environment supplies the value read from the reset-control register, the
value read from the reset-status register by the status-clearing
read-modify-write, and the value returned by the i-th poll of the status
register (the status bit is set by hardware asynchronously, so repeated
reads of the same address may differ). The returned list records every
register write as an `(offset, value)` pair, in order. -/

/-- Bit extraction performed by `omap4_prminst_is_hardreset_asserted` on a
register value: `v &= 1 << shift; v >>= shift`. -/
def hardreset_asserted_bit (v shift : Nat) : Nat := (v &&& (1 <<< shift)) >>> shift

/-- Reset-line device environment: `ctrlv` is the current reset-control
register value, `stv` the status-register value at clearing time, and
`stPoll i` the status-register value observed by the i-th poll. -/
structure ResetEnv where
  ctrlv : Nat
  stv : Nat
  stPoll : Nat → Nat

/-- `omap4_prminst_deassert_hardreset` over a device environment: returns
the errno-style result and the ordered list of `(offset, value)` register
writes performed. `budget` is the `MAX_MODULE_HARDRESET_WAIT` iteration
budget of the status poll. -/
def omap4_prminst_deassert_hardreset (shift rstctrl_offs : Nat)
    (env : ResetEnv) (budget : Nat) : Int × List (Nat × Nat) :=
  let mask := u32 (1 <<< shift)
  let rstst_offs := rstctrl_offs + 4
  if hardreset_asserted_bit env.ctrlv shift = 0 then (-EEXIST, [])
  else
    let stWrite := u32 ((env.stv &&& compl32 0xffffffff) ||| mask)
    let ctrlWrite := u32 (env.ctrlv &&& compl32 mask)
    let c := omap_test_timeout
      (fun i => decide (hardreset_asserted_bit (env.stPoll i) shift ≠ 0)) budget
    ((if c = budget then -EBUSY else 0),
     [(rstst_offs, stWrite), (rstctrl_offs, ctrlWrite)])

/-! ## Poll characterization lemmas -/

theorem pollAux_geK (K : Nat) : ∀ (fuel i : Nat),
    pollAux (fun j => decide (K ≤ j)) i fuel =
      if K ≤ i then i else min K (i + fuel) := by
  intro fuel
  induction fuel with
  | zero =>
    intro i
    simp only [pollAux]
    split
    · rfl
    · next h => omega
  | succ n ih =>
    intro i
    by_cases h : K ≤ i
    · simp [pollAux, h]
    · have h2 := ih (i + 1)
      simp only [pollAux, decide_eq_true_eq]
      rw [if_neg h, h2]
      split
      · next h3 => omega
      · next h3 => omega

theorem omap_test_timeout_firstAt (cond : Nat → Bool) (K budget : Nat)
    (h : ∀ i, cond i = decide (K ≤ i)) :
    omap_test_timeout cond budget = min K budget := by
  have hc : cond = fun j => decide (K ≤ j) := funext h
  rw [omap_test_timeout, hc, pollAux_geK]
  split
  · next h2 => omega
  · simp

/-! ## Voltage-domain data model (vp.c and its headers)

The voltage domain is the external collaborator consumed by the VP engine.
Function-pointer capabilities whose presence the code tests are modelled by
`Bool`/`Option` fields; the values single reads return come from `readv`
(a snapshot of the per-domain register file), while reads repeated inside
polling loops are supplied per-iteration by a `ScaleEnv` oracle, since the
hardware changes the polled registers between reads. -/

/-- The `omap_vp_ops` capability set; only the presence of the optional
`recover` callback is branch-relevant (`check_txdone`/`clear_txdone`
results are supplied by the environment oracles). -/
structure VpOps where
  hasRecover : Bool

/-- The `omap_vp_common` register-layout constants shared per SoC family. -/
structure VpCommon where
  vstatus_vpidle : Nat
  vpconfig_initvoltage_mask : Nat
  vpconfig_forceupdate : Nat
  vpconfig_initvdd : Nat
  vpconfig_vpenable : Nat
  vpconfig_erroroffset_mask : Nat
  vpconfig_timeouten : Nat
  vpconfig_errorgain_mask : Nat
  vstepmin_smpswaittimemin_shift : Nat
  vstepmin_stepmin_shift : Nat
  vstepmax_stepmax_shift : Nat
  vstepmax_smpswaittimemax_shift : Nat
  vlimitto_vddmax_shift : Nat
  vlimitto_vddmin_shift : Nat
  vlimitto_timeout_shift : Nat
  ops : VpOps

/-- The `omap_vp_instance` per-domain hardware handle: VP register
offsets and the `enabled` flag. -/
structure VpInstance where
  id : Nat
  vpconfig : Nat
  vstatus : Nat
  vstepmin : Nat
  vstepmax : Nat
  vlimitto : Nat
  voltage : Nat
  common : VpCommon
  enabled : Bool

/-- The `omap_voltdm_pmic` descriptor (conversion functions and timing
constants). `uv_to_vsel` results are truncated with `u8` at call sites, as
the C return type is `u8`/`char`. -/
structure Pmic where
  uv_to_vsel : Nat → Nat
  vsel_to_uv : Nat → Nat
  vp_timeout_us : Nat
  vddmin : Nat
  vddmax : Nat
  step_size : Nat
  slew_rate : Nat
  vp_vstepmin : Nat
  vp_vstepmax : Nat
  vp_erroroffset : Nat

/-- The `omap_vc_param` block; only the retention voltage is used here. -/
structure VcParam where
  ret : Nat

/-- The `omap_vp_param` block: domain-declared voltage bounds. -/
structure VpParam where
  vddmin : Nat
  vddmax : Nat

/-- The target voltage descriptor `omap_volt_data`. `volt` is modelled
from the spec: the nominal/operation voltage that the external
`omap_get_operation_voltage(volt_data)` helper (not among the source
units) extracts from the descriptor. -/
structure VoltData where
  volt : Nat
  vp_errgain : Nat

/-- The `voltagedomain` abstraction. `hasRead`/`hasWrite`/`hasRmw` model
whether the corresponding function pointers are non-NULL; `readv` is the
register-file snapshot consulted by one-shot reads. -/
structure Voltdm where
  hasRead : Bool
  hasWrite : Bool
  hasRmw : Bool
  readv : Nat → Nat
  pmic : Option Pmic
  vp : Option VpInstance
  vc_param : Option VcParam
  vp_param : Option VpParam
  sys_clk_rate : Nat

/-- Observable hardware-facing actions of the VP engine, in program order:
register writes, read-modify-writes, transaction-done clears, the
post-scale hook, and the recovery callback. -/
inductive Event where
  | write (val addr : Nat)
  | rmw (mask bits addr : Nat)
  | clearTxdone
  | postScale (volt tvsel cvsel : Nat)
  | recover
  deriving DecidableEq, Repr

/-- True on register-write events. -/
def isWrite : Event → Bool
  | Event.write _ _ => true
  | _ => false

/-- True on post-scale hook invocations. -/
def isPostScale : Event → Bool
  | Event.postScale _ _ _ => true
  | _ => false

/-! ## Rate-limited error/recovery path (`_vp_controlled_err`) -/

/-- `_MAX_RETRIES_BEFORE_RECOVER`: initial/reset value of the
recovery-trigger counter. -/
def _MAX_RETRIES_BEFORE_RECOVER : Nat := 50

/-- `_MAX_COUNT_ERR`: initial value of the verbose-log-message counter. -/
def _MAX_COUNT_ERR : Nat := 10

/-- The two process-wide counters `__vp_debug_error_message_count` and
`__vp_recover_count` (both C `u8`). -/
structure VpErrState where
  msgCount : Nat
  recoverCount : Nat
  deriving DecidableEq, Repr

/-- Initial counter state: `_MAX_COUNT_ERR` / `_MAX_RETRIES_BEFORE_RECOVER`. -/
def vpErrInit : VpErrState := ⟨_MAX_COUNT_ERR, _MAX_RETRIES_BEFORE_RECOVER⟩

/-- The `_vp_controlled_err` macro body: decrement the message counter
while nonzero (full-verbosity logging), and, when the domain's ops expose
a `recover` callback, pre-decrement the `u8` recovery counter and — exactly
when it reaches zero — invoke recovery and reset it to
`_MAX_RETRIES_BEFORE_RECOVER`. Returns the new counter state and whether
the recovery callback fired. -/
def _vp_controlled_err (hasRecover : Bool) (s : VpErrState) : VpErrState × Bool :=
  let s1 := if s.msgCount ≠ 0 then { s with msgCount := s.msgCount - 1 } else s
  if hasRecover then
    let rc := u8 (s1.recoverCount + 255)
    if rc = 0 then ({ s1 with recoverCount := _MAX_RETRIES_BEFORE_RECOVER }, true)
    else ({ s1 with recoverCount := rc }, false)
  else (s1, false)

/-- Iterate `n` consecutive errors through `_vp_controlled_err`, counting
how many times the recovery callback fired. -/
def iterErrs (hasRecover : Bool) : Nat → VpErrState → VpErrState × Nat
  | 0, s => (s, 0)
  | n + 1, s =>
    let r1 := _vp_controlled_err hasRecover s
    let r2 := iterErrs hasRecover n r1.1
    (r2.1, (if r1.2 then 1 else 0) + r2.2)

/-! ## VP engine operations (vp.c) -/

/-- `_vp_set_init_voltage`: computes the selector from the target voltage
via the PMIC conversion, composes the new `vpconfig` value with the
initvoltage/forceupdate/initvdd fields cleared and the selector inserted,
and performs the three-write pulse (value, value|initvdd, value). Returns
the composed `vpconfig` value and the three write events.
`vpconfigRead` is the value `voltdm->read(vp->vpconfig)` returned. -/
def _vp_set_init_voltage (pmic : Pmic) (vp : VpInstance)
    (vpconfigRead : Nat) (volt : Nat) : Nat × List Event :=
  let vsel := u8 (pmic.uv_to_vsel volt)
  let vpconfig := u32 ((vpconfigRead &&&
      compl32 (vp.common.vpconfig_initvoltage_mask |||
               vp.common.vpconfig_forceupdate |||
               vp.common.vpconfig_initvdd)) |||
    (vsel <<< ffs vp.common.vpconfig_initvoltage_mask))
  (vpconfig,
   [Event.write vpconfig vp.vpconfig,
    Event.write (u32 (vpconfig ||| vp.common.vpconfig_initvdd)) vp.vpconfig,
    Event.write vpconfig vp.vpconfig])

/-- Helper for the transaction-done clearing loop
`while (timeout++ < VP_TRANXDONE_TIMEOUT) { clear_txdone; if (!check_txdone)
break; udelay(1); }` of `omap_vp_forceupdate_scale`, run with pre-increment
value `t` and `fuel` remaining iterations. `txdone t` is what
`check_txdone` returns after the clear in the body whose pre-increment
value is `t`. Returns the final value of the C `timeout` variable (note
the post-increment on the failing test) and the number of `clear_txdone`
invocations performed. -/
def clearLoopAux (txdone : Nat → Bool) : Nat → Nat → Nat × Nat
  | t, 0 => (t + 1, 0)
  | t, fuel + 1 =>
    if txdone t then
      let r := clearLoopAux txdone (t + 1) fuel
      (r.1, r.2 + 1)
    else (t + 1, 1)

/-- The transaction-done clearing loop of `omap_vp_forceupdate_scale`,
with iteration budget `T` (`VP_TRANXDONE_TIMEOUT`); the loop body starts
from `timeout = 0`. -/
def clearTxdoneLoop (txdone : Nat → Bool) (T : Nat) : Nat × Nat :=
  clearLoopAux txdone 0 T

/-- `omap_vp_init`: dependency checks (domain, PMIC conversion, read/write
accessors, VP instance, VC and VP parameter blocks), each failure logging
and returning with no hardware write; on success marks the VP disabled,
computes the timeout budget, the clamped/converted voltage bounds and the
settle wait time, and performs the four composed register writes. Returns
the (possibly updated) domain and the ordered write events. -/
def omap_vp_init (voltdm : Option Voltdm) : Option Voltdm × List Event :=
  match voltdm with
  | none => (none, [])
  | some d =>
    match d.pmic with
    | none => (some d, [])
    | some pmic =>
      if d.hasRead = false ∨ d.hasWrite = false then (some d, [])
      else
        match d.vp with
        | none => (some d, [])
        | some vp =>
          match d.vc_param with
          | none => (some d, [])
          | some vc =>
            match d.vp_param with
            | none => (some d, [])
            | some vpp =>
              let vp1 := { vp with enabled := false }
              let sys_clk_rate := d.sys_clk_rate / 1000
              let timeout := u32 (sys_clk_rate * pmic.vp_timeout_us) / 1000
              let vddminUv := max (max vpp.vddmin pmic.vddmin) vc.ret
              let vddmaxUv := min vpp.vddmax pmic.vddmax
              let vddmin := u8 (pmic.uv_to_vsel vddminUv)
              let vddmax := u8 (pmic.uv_to_vsel vddmaxUv)
              let waittime := (u32 (pmic.step_size * sys_clk_rate) +
                  1000 * pmic.slew_rate - 1) / (1000 * pmic.slew_rate)
              let vstepmin := pmic.vp_vstepmin
              let vstepmax := pmic.vp_vstepmax
              let val1 := u32 ((pmic.vp_erroroffset <<<
                  ffs vp.common.vpconfig_erroroffset_mask) |||
                vp.common.vpconfig_timeouten)
              let val2 := u32 ((waittime <<< vp.common.vstepmin_smpswaittimemin_shift) |||
                (vstepmin <<< vp.common.vstepmin_stepmin_shift))
              let val3 := u32 ((vstepmax <<< vp.common.vstepmax_stepmax_shift) |||
                (waittime <<< vp.common.vstepmax_smpswaittimemax_shift))
              let val4 := u32 ((vddmax <<< vp.common.vlimitto_vddmax_shift) |||
                (vddmin <<< vp.common.vlimitto_vddmin_shift) |||
                (timeout <<< vp.common.vlimitto_timeout_shift))
              (some { d with vp := some vp1 },
               [Event.write val1 vp.vpconfig,
                Event.write val2 vp.vstepmin,
                Event.write val3 vp.vstepmax,
                Event.write val4 vp.vlimitto])

/-- `omap_vp_update_errorgain`: returns the errno-style result and
the hardware accesses performed. A NULL domain returns 0; a missing VP
instance or missing descriptor returns `-EINVAL`; a missing
read-modify-write accessor logs and returns 0; otherwise the single
read-modify-write of the error-gain field is performed. -/
def omap_vp_update_errorgain (voltdm : Option Voltdm)
    (volt_data : Option VoltData) : Int × List Event :=
  match voltdm with
  | none => (0, [])
  | some d =>
    match d.vp with
    | none => (-EINVAL, [])
    | some vp =>
      match volt_data with
      | none => (-EINVAL, [])
      | some vd =>
        if d.hasRmw = false then (0, [])
        else
          let mask := vp.common.vpconfig_errorgain_mask
          ((0 : Int),
           [Event.rmw mask (u32 (vd.vp_errgain <<< ffs mask)) vp.vpconfig])

/-- Per-call environment oracles for `omap_vp_forceupdate_scale`:
`idleRead i` is the `vstatus` value seen by the i-th idle poll;
`txdoneClear1 i` / `txdoneClear2 i` are the `check_txdone` results after
the i-th clear in the pre-trigger / cleanup clearing loops; `txdoneWait i`
is the `check_txdone` result of the i-th post-trigger poll;
`vpconfigInit` is the `vpconfig` value read inside `_vp_set_init_voltage`;
`preScaleRes` is the `omap_vc_pre_scale` result (error, or the
target/current selector out-parameters). -/
structure ScaleEnv where
  idleRead : Nat → Nat
  txdoneClear1 : Nat → Bool
  txdoneWait : Nat → Bool
  txdoneClear2 : Nat → Bool
  vpconfigInit : Nat
  preScaleRes : Except Int (Nat × Nat)

/-- `_vp_wait_for_idle` outcome: the final index of the bounded poll of
the `vstatus` idle bit. -/
def _vp_wait_for_idle (vp : VpInstance) (idleRead : Nat → Nat) (idleT : Nat) : Nat :=
  omap_test_timeout
    (fun i => decide ((idleRead i &&& vp.common.vstatus_vpidle) ≠ 0)) idleT

/-- `omap_vp_forceupdate_scale`: the force-update voltage-scaling
protocol. `idleT` / `tranxT` are the `VP_IDLE_TIMEOUT` /
`VP_TRANXDONE_TIMEOUT` iteration budgets; `es` the error-counter state on
entry. Returns `none` when the C code would dereference a NULL function
pointer not covered by its precondition checks (missing `read` in the
idle wait, missing PMIC in `_vp_set_init_voltage`); otherwise the
errno-style result, the ordered event list, and the final counter state. -/
def omap_vp_forceupdate_scale (voltdm : Option Voltdm) (target_v : Option VoltData)
    (env : ScaleEnv) (idleT tranxT : Nat) (es : VpErrState) :
    Option (Int × List Event × VpErrState) :=
  match voltdm with
  | none => some (-EINVAL, [], es)
  | some d =>
    if d.hasWrite = false then some (-EINVAL, [], es)
    else
      match target_v with
      | none => some (-EINVAL, [], es)
      | some tv =>
        match d.vp with
        | none => some (-EINVAL, [], es)
        | some vp =>
          let target_volt := tv.volt
          if d.hasRead = false then none
          else
            let tIdle := _vp_wait_for_idle vp env.idleRead idleT
            if idleT ≤ tIdle then
              let r := _vp_controlled_err vp.common.ops.hasRecover es
              some (-ETIMEDOUT, (if r.2 then [Event.recover] else []), r.1)
            else
              match env.preScaleRes with
              | Except.error e => some (e, [], es)
              | Except.ok sel =>
                let lc := clearTxdoneLoop env.txdoneClear1 tranxT
                let evs1 := List.replicate lc.2 Event.clearTxdone
                if tranxT ≤ lc.1 then
                  let r := _vp_controlled_err vp.common.ops.hasRecover es
                  some (-ETIMEDOUT,
                        evs1 ++ (if r.2 then [Event.recover] else []), r.1)
                else
                  match d.pmic with
                  | none => none
                  | some pmic =>
                    let siv := _vp_set_init_voltage pmic vp env.vpconfigInit target_volt
                    let vpconfig := siv.1
                    let evs2 := evs1 ++ siv.2 ++
                      [Event.write (u32 (vpconfig ||| vp.common.vpconfig_forceupdate))
                        vp.vpconfig]
                    let tTx := omap_test_timeout env.txdoneWait tranxT
                    let r1 :=
                      if tranxT ≤ tTx then _vp_controlled_err vp.common.ops.hasRecover es
                      else (es, false)
                    let evs3 := evs2 ++ (if r1.2 then [Event.recover] else []) ++
                      [Event.postScale target_volt sel.1 sel.2]
                    let lc2 := clearTxdoneLoop env.txdoneClear2 tranxT
                    let evs4 := evs3 ++ List.replicate lc2.2 Event.clearTxdone
                    let r2 :=
                      if tranxT ≤ lc2.1 then _vp_controlled_err vp.common.ops.hasRecover r1.1
                      else (r1.1, false)
                    let evs5 := evs4 ++ (if r2.2 then [Event.recover] else []) ++
                      [Event.write vpconfig vp.vpconfig]
                    some (0, evs5, r2.1)

/-- `omap_vp_enable`: precondition checks (domain, VP instance, read and
write accessors), no-op when already enabled, external current-voltage
lookup `omap_voltage_get_curr_vdata` supplied as `curr` (`none` models a
failed lookup), then the initial-voltage three-write pulse followed by the
VP-enable write and marking the VP enabled. Returns `none` when the C code
would dereference a NULL PMIC inside `_vp_set_init_voltage`; otherwise the
updated domain and the ordered write events. -/
def omap_vp_enable (voltdm : Option Voltdm) (curr : Option VoltData) :
    Option (Option Voltdm × List Event) :=
  match voltdm with
  | none => some (none, [])
  | some d =>
    match d.vp with
    | none => some (some d, [])
    | some vp =>
      if d.hasRead = false ∨ d.hasWrite = false then some (some d, [])
      else if vp.enabled then some (some d, [])
      else
        match curr with
        | none => some (some d, [])
        | some volt =>
          match d.pmic with
          | none => none
          | some pmic =>
            let siv := _vp_set_init_voltage pmic vp (d.readv vp.vpconfig) volt.volt
            let vpconfig2 := u32 (siv.1 ||| vp.common.vpconfig_vpenable)
            some (some { d with vp := some { vp with enabled := true } },
                  siv.2 ++ [Event.write vpconfig2 vp.vpconfig])

/-! ## Concrete instances used by the closed witness theorems -/

/-- Concrete VP capability set with a recovery callback registered. -/
def vpOpsX : VpOps := ⟨true⟩

/-- Concrete register-layout constant block. -/
def vpCommonX : VpCommon :=
  ⟨1, 0xff00, 0x100000, 0x200000, 1, 0xff000000, 8, 0xff0000,
   8, 0, 0, 8, 24, 16, 0, vpOpsX⟩

/-- Concrete VP instance (disabled). -/
def vpInstX : VpInstance :=
  ⟨0, 0x100, 0x104, 0x108, 0x10c, 0x110, 0x114, vpCommonX, false⟩

/-- Concrete PMIC descriptor. -/
def pmicX : Pmic :=
  ⟨fun v => v / 12500, fun s => s * 12500, 200, 600000, 1400000,
   12500, 4000, 1, 4, 2⟩

/-- Concrete VC parameter block (retention voltage). -/
def vcParamX : VcParam := ⟨700000⟩

/-- Concrete VP parameter block (domain-declared bounds). -/
def vpParamX : VpParam := ⟨600000, 1300000⟩

/-- Concrete fully-configured voltage domain. -/
def voltdmX : Voltdm :=
  ⟨true, true, true, fun _ => 0, some pmicX, some vpInstX,
   some vcParamX, some vpParamX, 38400000⟩

/-- Concrete domain whose read-modify-write accessor is NULL. -/
def voltdmNoRmw : Voltdm :=
  ⟨true, true, false, fun _ => 0, some pmicX, some vpInstX,
   some vcParamX, some vpParamX, 38400000⟩

/-- Concrete target voltage descriptor. -/
def vdX : VoltData := ⟨1200000, 0x17⟩

/-- Concrete partition table: partitions 1..3 mapped, 0 invalid, 4 unmapped. -/
def prmLayoutX : PrmLayout :=
  ⟨5, 0, fun p => if p = 0 then none else if p ≤ 3 then some (0x1000 * p) else none⟩

/-- Concrete register file. -/
def memX : Nat → Nat := fun _ => 0x12345678

/-- Concrete environment for a clean scale: idle immediately, the
pre-trigger clear succeeds on the first try, transaction-done reported on
the first post-trigger poll, pre-scale returning selectors (0x10, 0x20). -/
def scaleEnvOk : ScaleEnv :=
  ⟨fun _ => 1, fun _ => false, fun _ => true, fun _ => false, 0,
   Except.ok (0x10, 0x20)⟩

/-! ## Small shared lemmas -/

theorem u32_u32 (n : Nat) : u32 (u32 n) = u32 n := by
  unfold u32
  exact Nat.mod_mod_of_dvd n dvd_rfl

theorem countP_recover_if (p : Event → Bool) (h : p Event.recover = false)
    (b : Bool) : List.countP p (if b then [Event.recover] else []) = 0 := by
  cases b <;> simp [h]

theorem countP_replicate_clearTxdone (p : Event → Bool)
    (h : p Event.clearTxdone = false) (n : Nat) :
    List.countP p (List.replicate n Event.clearTxdone) = 0 := by
  induction n with
  | zero => rfl
  | succ m ih => simp [List.replicate_succ, List.countP_cons, h, ih]

theorem prmPartBad_iff (L : PrmLayout) (part : Nat) :
    prmPartBad L part = true ↔
      L.nParts ≤ part ∨ part = L.invalid ∨ L.bases part = none := by
  simp [prmPartBad, Option.isNone_iff_eq_none, or_assoc]

/-! ## Claim theorems -/

/-- C9: the partitioned register read and write terminate the process via
the fatal `BUG_ON` (returning no value and touching no hardware) exactly
when the partition is out of range, equals the invalid-partition sentinel,
or has no initialized base; for a partition with an initialized base that
passes those checks, the access resolves to
`base(partition) + instance-offset + register-index`. -/
theorem prminst_access_fatal_iff (L : PrmLayout) (mem : Nat → Nat)
    (val part inst idx : Nat) :
    (omap4_prminst_read_inst_reg L mem part inst idx = none ↔
      L.nParts ≤ part ∨ part = L.invalid ∨ L.bases part = none) ∧
    (omap4_prminst_write_inst_reg L mem val part inst idx = none ↔
      L.nParts ≤ part ∨ part = L.invalid ∨ L.bases part = none) ∧
    ∀ b, L.bases part = some b → ¬ L.nParts ≤ part → part ≠ L.invalid →
      omap4_prminst_read_inst_reg L mem part inst idx =
        some (u32 (mem (b + inst + idx))) ∧
      ∃ mem1, omap4_prminst_write_inst_reg L mem val part inst idx = some mem1 ∧
        mem1 (b + inst + idx) = u32 val ∧
        ∀ a, a ≠ b + inst + idx → mem1 a = mem a := by
  refine ⟨?_, ?_, ?_⟩
  · rw [← prmPartBad_iff]
    by_cases hbad : prmPartBad L part <;>
      simp [omap4_prminst_read_inst_reg, hbad]
  · rw [← prmPartBad_iff]
    by_cases hbad : prmPartBad L part <;>
      simp [omap4_prminst_write_inst_reg, hbad]
  · intro b hb h1 h2
    have hbad : prmPartBad L part = false := by
      simp [prmPartBad, hb, h1, h2]
    refine ⟨?_, ?_⟩
    · simp [omap4_prminst_read_inst_reg, hbad, prminst_addr, hb]
    · refine ⟨fun a => if a = prminst_addr L part inst idx then u32 val else mem a,
        ?_, ?_, ?_⟩
      · simp [omap4_prminst_write_inst_reg, hbad]
      · simp [prminst_addr, hb]
      · intro a ha
        have : a ≠ prminst_addr L part inst idx := by
          simpa [prminst_addr, hb] using ha
        simp [this]

/-- C9 witness: at the concrete layout, partition 4 (unmapped), partition 0
(invalid) and partition 7 (out of range) all hit the fatal branch, while
partition 2 resolves to `0x2000 + inst + idx`. -/
theorem prminst_access_fatal_iff_witness :
    (omap4_prminst_read_inst_reg prmLayoutX memX 7 0x100 4 = none ↔
      prmLayoutX.nParts ≤ 7 ∨ 7 = prmLayoutX.invalid ∨ prmLayoutX.bases 7 = none) ∧
    (omap4_prminst_read_inst_reg prmLayoutX memX 2 0x100 4 =
      some (u32 (memX (0x2000 + 0x100 + 4)))) := by
  refine ⟨(prminst_access_fatal_iff prmLayoutX memX 0xdead 7 0x100 4).1, ?_⟩
  exact ((prminst_access_fatal_iff prmLayoutX memX 0xdead 2 0x100 4).2.2
    0x2000 (by decide) (by decide) (by decide)).1

/-- C4: for every mask, bits and register file, on a valid mapped
partition `omap4_prminst_rmw_inst_reg_bits` reads the register's prior
value `old`, writes `(old &&& ~mask) ||| bits` back to the same resolved
address (leaving every other address unchanged), and returns that written
value. -/
theorem rmw_inst_reg_bits_formula (L : PrmLayout) (mem : Nat → Nat)
    (mask bits part inst idx b : Nat)
    (hb : L.bases part = some b) (h1 : ¬ L.nParts ≤ part) (h2 : part ≠ L.invalid) :
    ∃ mem1,
      omap4_prminst_rmw_inst_reg_bits L mem mask bits part inst idx =
        some (mem1, u32 ((u32 (mem (b + inst + idx)) &&& compl32 mask) ||| bits)) ∧
      mem1 (b + inst + idx) =
        u32 ((u32 (mem (b + inst + idx)) &&& compl32 mask) ||| bits) ∧
      ∀ a, a ≠ b + inst + idx → mem1 a = mem a := by
  have hbad : prmPartBad L part = false := by
    simp [prmPartBad, hb, h1, h2]
  refine ⟨fun a => if a = prminst_addr L part inst idx
      then u32 (u32 ((u32 (mem (prminst_addr L part inst idx)) &&& compl32 mask) ||| bits))
      else mem a, ?_, ?_, ?_⟩
  · simp [omap4_prminst_rmw_inst_reg_bits, omap4_prminst_read_inst_reg,
      omap4_prminst_write_inst_reg, hbad, prminst_addr, hb, u32_u32]
  · simp [prminst_addr, hb, u32_u32]
  · intro a ha
    have : a ≠ prminst_addr L part inst idx := by
      simpa [prminst_addr, hb] using ha
    simp [this]

/-- C4 witness: concrete read-modify-write on partition 1. -/
theorem rmw_inst_reg_bits_formula_witness :
    ∃ mem1,
      omap4_prminst_rmw_inst_reg_bits prmLayoutX memX 0xff 0x12 1 0x100 4 =
        some (mem1, u32 ((u32 (memX (0x1000 + 0x100 + 4)) &&& compl32 0xff) ||| 0x12)) ∧
      mem1 (0x1000 + 0x100 + 4) =
        u32 ((u32 (memX (0x1000 + 0x100 + 4)) &&& compl32 0xff) ||| 0x12) ∧
      ∀ a, a ≠ 0x1000 + 0x100 + 4 → mem1 a = memX a :=
  rmw_inst_reg_bits_formula prmLayoutX memX 0xff 0x12 1 0x100 4 0x1000
    (by decide) (by decide) (by decide)

/-- C5: deasserting a reset line whose control bit is not currently
asserted fails with `-EEXIST` (AlreadyDeasserted) and performs zero
register writes. -/
theorem deassert_already_deasserted (shift rstctrl_offs : Nat) (env : ResetEnv)
    (budget : Nat) (h : hardreset_asserted_bit env.ctrlv shift = 0) :
    omap4_prminst_deassert_hardreset shift rstctrl_offs env budget =
      (-EEXIST, []) ∧ (-EEXIST : Int) ≠ 0 := by
  refine ⟨?_, by decide⟩
  simp [omap4_prminst_deassert_hardreset, h]

/-- C5 witness: control register 0 at bit 3. -/
theorem deassert_already_deasserted_witness :
    omap4_prminst_deassert_hardreset 3 0x10 ⟨0, 0, fun _ => 0⟩ 36 =
      (-EEXIST, []) ∧ (-EEXIST : Int) ≠ 0 :=
  deassert_already_deasserted 3 0x10 ⟨0, 0, fun _ => 0⟩ 36 (by decide)

/-- C2: deasserting an asserted reset line first writes the 1-bit mask to
the status register at `ctrl_offset + 4` (write-1-to-clear), then clears
the control bit at `ctrl_offset`, then polls the status bit within the
fixed budget; with hardware that sets the status bit from the K-th poll
on, the call returns success iff `K < budget` and `-EBUSY` iff
`budget ≤ K`. -/
theorem deassert_asserted_success_iff (shift rstctrl_offs ctrlv stv K budget : Nat)
    (hc : hardreset_asserted_bit ctrlv shift ≠ 0) :
    (omap4_prminst_deassert_hardreset shift rstctrl_offs
        ⟨ctrlv, stv, fun i => if K ≤ i then 1 <<< shift else 0⟩ budget).2 =
      [(rstctrl_offs + 4, u32 (1 <<< shift)),
       (rstctrl_offs, u32 (ctrlv &&& compl32 (u32 (1 <<< shift))))] ∧
    ((omap4_prminst_deassert_hardreset shift rstctrl_offs
        ⟨ctrlv, stv, fun i => if K ≤ i then 1 <<< shift else 0⟩ budget).1 = 0 ↔
      K < budget) ∧
    ((omap4_prminst_deassert_hardreset shift rstctrl_offs
        ⟨ctrlv, stv, fun i => if K ≤ i then 1 <<< shift else 0⟩ budget).1 = -EBUSY ↔
      budget ≤ K) := by
  have hbit : ∀ i : Nat,
      decide (hardreset_asserted_bit (if K ≤ i then 1 <<< shift else 0) shift ≠ 0) =
        decide (K ≤ i) := by
    intro i
    by_cases h : K ≤ i
    · have hp : 0 < 2 ^ shift := Nat.pow_pos (by norm_num)
      have h1 : hardreset_asserted_bit (1 <<< shift) shift = 1 := by
        simp [hardreset_asserted_bit, Nat.and_self, Nat.one_shiftLeft,
          Nat.shiftRight_eq_div_pow, Nat.div_self hp]
      simp [h, h1]
    · simp [h, hardreset_asserted_bit]
  have hpoll : omap_test_timeout
      (fun i => decide (hardreset_asserted_bit (if K ≤ i then 1 <<< shift else 0)
        shift ≠ 0)) budget = min K budget :=
    omap_test_timeout_firstAt _ K budget hbit
  have h0 : compl32 0xffffffff = 0 := by decide
  have hsel : (if min K budget = budget then (-EBUSY : Int) else 0) =
      if budget ≤ K then -EBUSY else 0 := by
    by_cases hkb : budget ≤ K
    · rw [if_pos (by omega), if_pos hkb]
    · rw [if_neg (by omega), if_neg hkb]
  have hr : omap4_prminst_deassert_hardreset shift rstctrl_offs
      ⟨ctrlv, stv, fun i => if K ≤ i then 1 <<< shift else 0⟩ budget =
      ((if budget ≤ K then -EBUSY else 0),
       [(rstctrl_offs + 4, u32 (1 <<< shift)),
        (rstctrl_offs, u32 (ctrlv &&& compl32 (u32 (1 <<< shift))))]) := by
    simp only [omap4_prminst_deassert_hardreset]
    rw [if_neg hc]
    simp only [hpoll, hsel, h0, Nat.and_zero, Nat.zero_or, u32_u32]
  have h1 : (omap4_prminst_deassert_hardreset shift rstctrl_offs
      ⟨ctrlv, stv, fun i => if K ≤ i then 1 <<< shift else 0⟩ budget).1 =
      if budget ≤ K then -EBUSY else 0 := by rw [hr]
  refine ⟨by rw [hr], ?_, ?_⟩
  · rw [h1]
    by_cases hkb : budget ≤ K
    · rw [if_pos hkb]
      constructor
      · intro hfalse
        exact absurd hfalse (by decide)
      · intro hK
        exact absurd hK (by omega)
    · rw [if_neg hkb]
      constructor
      · intro _
        omega
      · intro _
        rfl
  · rw [h1]
    by_cases hkb : budget ≤ K
    · rw [if_pos hkb]
      exact ⟨fun _ => hkb, fun _ => rfl⟩
    · rw [if_neg hkb]
      constructor
      · intro hfalse
        exact absurd hfalse (by decide)
      · intro hcl
        exact absurd hcl hkb

/-- C2 witness: bit 3 asserted, hardware reporting from the 2nd poll,
budget 36: the write sequence and the success verdict at K = 2 < 36. -/
theorem deassert_asserted_success_iff_witness :
    ((omap4_prminst_deassert_hardreset 3 0x10
        ⟨8, 0, fun i => if 2 ≤ i then 1 <<< 3 else 0⟩ 36).1 = 0 ↔ 2 < 36) ∧
    ((omap4_prminst_deassert_hardreset 3 0x10
        ⟨8, 0, fun i => if 2 ≤ i then 1 <<< 3 else 0⟩ 36).2 =
      [(0x10 + 4, u32 (1 <<< 3)), (0x10, u32 (8 &&& compl32 (u32 (1 <<< 3))))]) :=
  ⟨(deassert_asserted_success_iff 3 0x10 8 0 2 36 (by decide)).2.1,
   (deassert_asserted_success_iff 3 0x10 8 0 2 36 (by decide)).1⟩

/-- C3: from the initial/reset value `_MAX_RETRIES_BEFORE_RECOVER` (N₂),
each routed error for a domain exposing a recovery callback decrements the
shared recovery counter; the callback fires for the first time exactly on
the N₂-th consecutive routed error, after which the counter is reset to
N₂ (so over 2·N₂ routed errors it fires exactly twice); routed errors for
domains without a recovery callback leave the recovery counter unchanged. -/
theorem vp_recover_counter_behaviour (n : Nat)
    (h1 : n < _MAX_RETRIES_BEFORE_RECOVER) (h2 : 0 < n) :
    (iterErrs true n vpErrInit).2 = 0 ∧
    (iterErrs true n vpErrInit).1.recoverCount = _MAX_RETRIES_BEFORE_RECOVER - n ∧
    (iterErrs true _MAX_RETRIES_BEFORE_RECOVER vpErrInit).2 = 1 ∧
    (iterErrs true _MAX_RETRIES_BEFORE_RECOVER vpErrInit).1.recoverCount =
      _MAX_RETRIES_BEFORE_RECOVER ∧
    (iterErrs true (2 * _MAX_RETRIES_BEFORE_RECOVER) vpErrInit).2 = 2 ∧
    (iterErrs false n vpErrInit).1.recoverCount = _MAX_RETRIES_BEFORE_RECOVER := by
  have key : ∀ m : Nat, m < 50 → 0 < m →
      (iterErrs true m vpErrInit).2 = 0 ∧
      (iterErrs true m vpErrInit).1.recoverCount = 50 - m ∧
      (iterErrs false m vpErrInit).1.recoverCount = 50 := by decide
  obtain ⟨k1, k2, k3⟩ := key n h1 h2
  exact ⟨k1, k2, by decide, by decide, by decide, k3⟩

/-- C3 witness: one routed error decrements the recovery counter to 49
without firing; the N₂-th error fires once and resets the counter. -/
theorem vp_recover_counter_behaviour_witness :
    (iterErrs true 1 vpErrInit).2 = 0 ∧
    (iterErrs true 1 vpErrInit).1.recoverCount = _MAX_RETRIES_BEFORE_RECOVER - 1 ∧
    (iterErrs true _MAX_RETRIES_BEFORE_RECOVER vpErrInit).2 = 1 ∧
    (iterErrs true _MAX_RETRIES_BEFORE_RECOVER vpErrInit).1.recoverCount =
      _MAX_RETRIES_BEFORE_RECOVER ∧
    (iterErrs true (2 * _MAX_RETRIES_BEFORE_RECOVER) vpErrInit).2 = 2 ∧
    (iterErrs false 1 vpErrInit).1.recoverCount = _MAX_RETRIES_BEFORE_RECOVER :=
  vp_recover_counter_behaviour 1 (by decide) (by decide)

/-- C6 counterexample: with a VP instance present and a target descriptor
present but the read-modify-write accessor NULL,
`omap_vp_update_errorgain` returns 0 (success), not `-EINVAL`, touching no
hardware — contradicting the claim that a missing rmw accessor yields
`InvalidArgument`. -/
theorem update_errorgain_missing_rmw_returns_zero :
    omap_vp_update_errorgain (some voltdmNoRmw) (some vdX) = (0, []) ∧
    ((0 : Int) = -EINVAL → False) :=
  ⟨rfl, by decide⟩

/-- C6 amended: `omap_vp_update_errorgain` returns `-EINVAL` when the
domain has no VP instance or when the target descriptor is absent; when
the read-modify-write accessor is missing it logs and returns 0 (the
success code), and a NULL domain also returns 0; in all these cases no
hardware register is touched. -/
theorem update_errorgain_precondition_cases (d : Voltdm) (vd : Option VoltData) :
    (d.vp = none → omap_vp_update_errorgain (some d) vd = (-EINVAL, [])) ∧
    (∀ vp, d.vp = some vp → vd = none →
      omap_vp_update_errorgain (some d) vd = (-EINVAL, [])) ∧
    (∀ vp vdata, d.vp = some vp → vd = some vdata → d.hasRmw = false →
      omap_vp_update_errorgain (some d) vd = (0, [])) ∧
    omap_vp_update_errorgain none vd = (0, []) := by
  refine ⟨?_, ?_, ?_, rfl⟩
  · intro h
    simp [omap_vp_update_errorgain, h]
  · intro vp hvp hvd
    simp [omap_vp_update_errorgain, hvp, hvd]
  · intro vp vdata hvp hvd hrmw
    simp [omap_vp_update_errorgain, hvp, hvd, hrmw]

/-- C6 amended witness: the missing-rmw case at the concrete domain. -/
theorem update_errorgain_precondition_cases_witness :
    omap_vp_update_errorgain (some voltdmNoRmw) (some vdX) = (0, []) :=
  (update_errorgain_precondition_cases voltdmNoRmw (some vdX)).2.2.1
    vpInstX vdX rfl rfl rfl

/-- C7: for a domain passing all dependency checks, `omap_vp_init` marks
the VP disabled and performs exactly the four composed register writes;
the limit-register value composes the maximum bound
`min(domain vddmax, PMIC vddmax)` and the minimum bound
`max(max(domain vddmin, PMIC vddmin), retention)`, both converted to
selector codes by the PMIC `uv_to_vsel` function before composition. -/
theorem vp_init_four_composed_writes (d : Voltdm) (pmic : Pmic) (vp : VpInstance)
    (vc : VcParam) (vpp : VpParam)
    (hp : d.pmic = some pmic) (hr : d.hasRead = true) (hw : d.hasWrite = true)
    (hvp : d.vp = some vp) (hvc : d.vc_param = some vc)
    (hvpp : d.vp_param = some vpp) :
    omap_vp_init (some d) =
      (some { d with vp := some { vp with enabled := false } },
       [Event.write (u32 ((pmic.vp_erroroffset <<<
            ffs vp.common.vpconfig_erroroffset_mask) |||
          vp.common.vpconfig_timeouten)) vp.vpconfig,
        Event.write (u32 ((((u32 (pmic.step_size * (d.sys_clk_rate / 1000)) +
            1000 * pmic.slew_rate - 1) / (1000 * pmic.slew_rate)) <<<
            vp.common.vstepmin_smpswaittimemin_shift) |||
          (pmic.vp_vstepmin <<< vp.common.vstepmin_stepmin_shift))) vp.vstepmin,
        Event.write (u32 ((pmic.vp_vstepmax <<< vp.common.vstepmax_stepmax_shift) |||
          (((u32 (pmic.step_size * (d.sys_clk_rate / 1000)) +
            1000 * pmic.slew_rate - 1) / (1000 * pmic.slew_rate)) <<<
            vp.common.vstepmax_smpswaittimemax_shift))) vp.vstepmax,
        Event.write (u32 ((u8 (pmic.uv_to_vsel (min vpp.vddmax pmic.vddmax)) <<<
            vp.common.vlimitto_vddmax_shift) |||
          (u8 (pmic.uv_to_vsel (max (max vpp.vddmin pmic.vddmin) vc.ret)) <<<
            vp.common.vlimitto_vddmin_shift) |||
          ((u32 ((d.sys_clk_rate / 1000) * pmic.vp_timeout_us) / 1000) <<<
            vp.common.vlimitto_timeout_shift))) vp.vlimitto]) := by
  simp [omap_vp_init, hp, hr, hw, hvp, hvc, hvpp]

/-- C7 witness: the concrete domain produces exactly four writes and a
disabled VP. -/
theorem vp_init_four_composed_writes_witness :
    (omap_vp_init (some voltdmX)).2.countP isWrite = 4 ∧
    (∃ d1, (omap_vp_init (some voltdmX)).1 = some d1 ∧
      ∃ vp1, d1.vp = some vp1 ∧ vp1.enabled = false) := by
  have h := vp_init_four_composed_writes voltdmX pmicX vpInstX vcParamX vpParamX
    rfl rfl rfl rfl rfl rfl
  rw [h]
  exact ⟨rfl, ⟨_, rfl, ⟨_, rfl, rfl⟩⟩⟩

/-- C8: `omap_vp_enable` is idempotent — for a correctly configured,
currently disabled domain whose voltage lookup succeeds, the first call
performs the four hardware writes (three-write initial-voltage pulse plus
the VP-enable write) and sets the enabled flag; the immediately following
second call performs no write and the flag stays true. -/
theorem vp_enable_idempotent (d : Voltdm) (vp : VpInstance) (pmic : Pmic)
    (volt : VoltData) (hvp : d.vp = some vp) (hr : d.hasRead = true)
    (hw : d.hasWrite = true) (hen : vp.enabled = false) (hp : d.pmic = some pmic) :
    ∃ d1 evs1,
      omap_vp_enable (some d) (some volt) = some (some d1, evs1) ∧
      evs1.countP isWrite = 4 ∧
      (∃ vp1, d1.vp = some vp1 ∧ vp1.enabled = true) ∧
      omap_vp_enable (some d1) (some volt) = some (some d1, []) := by
  have h1 : omap_vp_enable (some d) (some volt) =
      some (some { d with vp := some { vp with enabled := true } },
        (_vp_set_init_voltage pmic vp (d.readv vp.vpconfig) volt.volt).2 ++
        [Event.write (u32 ((_vp_set_init_voltage pmic vp (d.readv vp.vpconfig)
            volt.volt).1 ||| vp.common.vpconfig_vpenable)) vp.vpconfig]) := by
    simp [omap_vp_enable, hvp, hr, hw, hen, hp]
  have h2 : omap_vp_enable
      (some { d with vp := some { vp with enabled := true } }) (some volt) =
      some (some { d with vp := some { vp with enabled := true } }, []) := by
    simp [omap_vp_enable, hr, hw]
  refine ⟨_, _, h1, ?_, ⟨_, rfl, rfl⟩, h2⟩
  simp [_vp_set_init_voltage, List.countP_append, List.countP_cons, isWrite]

/-- C8 witness: the concrete disabled domain. -/
theorem vp_enable_idempotent_witness :
    ∃ d1 evs1,
      omap_vp_enable (some voltdmX) (some vdX) = some (some d1, evs1) ∧
      evs1.countP isWrite = 4 ∧
      (∃ vp1, d1.vp = some vp1 ∧ vp1.enabled = true) ∧
      omap_vp_enable (some d1) (some vdX) = some (some d1, []) :=
  vp_enable_idempotent voltdmX vpInstX pmicX vdX rfl rfl rfl rfl rfl

/-- C10: for a currently disabled VP whose domain passes the pointer
checks, a failed current-voltage lookup makes `omap_vp_enable` perform no
register write and leave the domain (hence the disabled flag) unchanged,
and a later retry with a successful lookup still performs the full
four-write initial-voltage and VP-enable sequence, setting the flag. -/
theorem vp_enable_lookup_failure_then_retry (d : Voltdm) (vp : VpInstance)
    (pmic : Pmic) (volt : VoltData) (hvp : d.vp = some vp) (hr : d.hasRead = true)
    (hw : d.hasWrite = true) (hen : vp.enabled = false) (hp : d.pmic = some pmic) :
    omap_vp_enable (some d) none = some (some d, []) ∧
    (d.vp = some vp ∧ vp.enabled = false) ∧
    (∃ d1 evs1, omap_vp_enable (some d) (some volt) = some (some d1, evs1) ∧
      evs1.countP isWrite = 4 ∧ ∃ vp1, d1.vp = some vp1 ∧ vp1.enabled = true) := by
  refine ⟨?_, ⟨hvp, hen⟩, ?_⟩
  · simp [omap_vp_enable, hvp, hr, hw, hen]
  · have h1 : omap_vp_enable (some d) (some volt) =
        some (some { d with vp := some { vp with enabled := true } },
          (_vp_set_init_voltage pmic vp (d.readv vp.vpconfig) volt.volt).2 ++
          [Event.write (u32 ((_vp_set_init_voltage pmic vp (d.readv vp.vpconfig)
              volt.volt).1 ||| vp.common.vpconfig_vpenable)) vp.vpconfig]) := by
      simp [omap_vp_enable, hvp, hr, hw, hen, hp]
    refine ⟨_, _, h1, ?_, ⟨_, rfl, rfl⟩⟩
    simp [_vp_set_init_voltage, List.countP_append, List.countP_cons, isWrite]

/-- C10 witness: the concrete disabled domain with a failed then a
successful lookup. -/
theorem vp_enable_lookup_failure_then_retry_witness :
    omap_vp_enable (some voltdmX) none = some (some voltdmX, []) ∧
    (voltdmX.vp = some vpInstX ∧ vpInstX.enabled = false) ∧
    (∃ d1 evs1, omap_vp_enable (some voltdmX) (some vdX) = some (some d1, evs1) ∧
      evs1.countP isWrite = 4 ∧ ∃ vp1, d1.vp = some vp1 ∧ vp1.enabled = true) :=
  vp_enable_lookup_failure_then_retry voltdmX vpInstX pmicX vdX rfl rfl rfl rfl rfl

/-- C1: for a domain passing the precondition checks (with its read
accessor and PMIC present, per the capability contract) and a succeeding
pre-scale hook, `omap_vp_forceupdate_scale` returns an error exactly when
the idle-wait poll (step 2) or the pre-trigger transaction-done clear loop
(step 4) exhausts its budget, in which case it returns `-ETIMEDOUT`
having performed none of the voltage-change hardware steps (no register
write, no post-scale); otherwise — whatever the post-trigger wait (step 7)
and the cleanup clear loop (step 9) observe — it performs all five writes
(three-write initial-voltage pulse, force-update trigger, final
force-bit-clear), invokes the post-scale hook exactly once, and returns
success. -/
theorem forceupdate_scale_error_paths (d : Voltdm) (tv : VoltData)
    (env : ScaleEnv) (idleT tranxT : Nat) (es : VpErrState) (vp : VpInstance)
    (pmic : Pmic) (tvs cvs : Nat)
    (hw : d.hasWrite = true) (hvp : d.vp = some vp) (hr : d.hasRead = true)
    (hp : d.pmic = some pmic) (hps : env.preScaleRes = Except.ok (tvs, cvs)) :
    ∃ ret evs es2,
      omap_vp_forceupdate_scale (some d) (some tv) env idleT tranxT es =
        some (ret, evs, es2) ∧
      (¬ ret = 0 ↔ (idleT ≤ _vp_wait_for_idle vp env.idleRead idleT ∨
          tranxT ≤ (clearTxdoneLoop env.txdoneClear1 tranxT).1)) ∧
      ((idleT ≤ _vp_wait_for_idle vp env.idleRead idleT ∨
          tranxT ≤ (clearTxdoneLoop env.txdoneClear1 tranxT).1) →
        ret = -ETIMEDOUT ∧ evs.countP isWrite = 0 ∧ evs.countP isPostScale = 0) ∧
      (¬ (idleT ≤ _vp_wait_for_idle vp env.idleRead idleT ∨
          tranxT ≤ (clearTxdoneLoop env.txdoneClear1 tranxT).1) →
        ret = 0 ∧ evs.countP isWrite = 5 ∧ evs.countP isPostScale = 1) := by
  by_cases h1 : idleT ≤ _vp_wait_for_idle vp env.idleRead idleT
  · have heq : omap_vp_forceupdate_scale (some d) (some tv) env idleT tranxT es =
        some (-ETIMEDOUT,
          (if (_vp_controlled_err vp.common.ops.hasRecover es).2
            then [Event.recover] else []),
          (_vp_controlled_err vp.common.ops.hasRecover es).1) := by
      simp [omap_vp_forceupdate_scale, hw, hvp, hr, h1]
    refine ⟨_, _, _, heq, ?_, ?_, ?_⟩
    · exact ⟨fun _ => Or.inl h1, fun _ => by decide⟩
    · intro _
      exact ⟨rfl, countP_recover_if isWrite rfl _, countP_recover_if isPostScale rfl _⟩
    · intro hno
      exact absurd (Or.inl h1) hno
  · by_cases h2 : tranxT ≤ (clearTxdoneLoop env.txdoneClear1 tranxT).1
    · have heq : omap_vp_forceupdate_scale (some d) (some tv) env idleT tranxT es =
          some (-ETIMEDOUT,
            List.replicate (clearTxdoneLoop env.txdoneClear1 tranxT).2
                Event.clearTxdone ++
              (if (_vp_controlled_err vp.common.ops.hasRecover es).2
                then [Event.recover] else []),
            (_vp_controlled_err vp.common.ops.hasRecover es).1) := by
        simp [omap_vp_forceupdate_scale, hw, hvp, hr, h1, hps, h2]
      refine ⟨_, _, _, heq, ?_, ?_, ?_⟩
      · exact ⟨fun _ => Or.inr h2, fun _ => by decide⟩
      · intro _
        refine ⟨rfl, ?_, ?_⟩ <;>
          simp [List.countP_append, countP_replicate_clearTxdone,
            countP_recover_if, isWrite, isPostScale]
      · intro hno
        exact absurd (Or.inr h2) hno
    · refine ⟨0, _, _,
        by
          simp [omap_vp_forceupdate_scale, hw, hvp, hr, h1, hps, h2, hp]
          exact ⟨rfl, rfl⟩,
        ?_, ?_, ?_⟩
      · constructor
        · intro hne
          exact absurd rfl hne
        · intro hor
          exact absurd hor (not_or.mpr ⟨h1, h2⟩)
      · intro hor
        exact absurd hor (not_or.mpr ⟨h1, h2⟩)
      · intro _
        refine ⟨rfl, ?_, ?_⟩ <;>
          simp [_vp_set_init_voltage, List.countP_append, List.countP_cons,
            countP_replicate_clearTxdone, countP_recover_if, isWrite, isPostScale]

/-- C1 witness: the concrete domain with an immediately idle VP, a
first-try transaction-done clear, and pre-scale selectors (0x10, 0x20):
the non-abort conclusions at budgets 200/300. -/
theorem forceupdate_scale_error_paths_witness :
    ∃ ret evs es2,
      omap_vp_forceupdate_scale (some voltdmX) (some vdX) scaleEnvOk 200 300
          vpErrInit = some (ret, evs, es2) ∧
      (¬ ret = 0 ↔ (200 ≤ _vp_wait_for_idle vpInstX scaleEnvOk.idleRead 200 ∨
          300 ≤ (clearTxdoneLoop scaleEnvOk.txdoneClear1 300).1)) ∧
      ((200 ≤ _vp_wait_for_idle vpInstX scaleEnvOk.idleRead 200 ∨
          300 ≤ (clearTxdoneLoop scaleEnvOk.txdoneClear1 300).1) →
        ret = -ETIMEDOUT ∧ evs.countP isWrite = 0 ∧ evs.countP isPostScale = 0) ∧
      (¬ (200 ≤ _vp_wait_for_idle vpInstX scaleEnvOk.idleRead 200 ∨
          300 ≤ (clearTxdoneLoop scaleEnvOk.txdoneClear1 300).1) →
        ret = 0 ∧ evs.countP isWrite = 5 ∧ evs.countP isPostScale = 1) :=
  forceupdate_scale_error_paths voltdmX vdX scaleEnvOk 200 300 vpErrInit
    vpInstX pmicX 0x10 0x20 rfl rfl rfl rfl rfl
